import Mathlib

/-!
Shallow embedding of the character-controller core of
`src/main.rs` (avian3d-stress-test1): the fixed-tick pipeline
`check_is_on_ground → movement_controls → update_linear_velocity → apply_impulses`
together with the jump-cooldown timer state it depends on.

Modelling conventions:
* `f32` quantities that only ever hold exact small values (the ±1 input
  scalars, ray-hit distances compared against the `1.01` threshold) are
  modelled as `ℚ`, so every comparison the code performs on them is decidable.
* quantities that flow through trigonometry / normalization
  (`transform.forward()`, `Vec3::normalize`) are modelled as `ℝ`.
* `std::time::Duration` (non-negative, nanosecond precision) is modelled as a
  natural number of nanoseconds; Bevy's `Timer` in `TimerMode::Once` clamps
  `elapsed` at `duration` once finished, which `min` reproduces.
* each Bevy system is modelled as a function of the list of entities matching
  its query; `get_single_mut` succeeds exactly on one-element lists, and the
  `println!("Could not query!")` diagnostic is modelled as a `Bool` flag in the
  system's result.
-/

/-- `const MOVEMENT_SPEED: f32 = 10.;` (src/main.rs:24). -/
def MOVEMENT_SPEED : ℝ := 10

/-- `const ROTATE_SPEED: f32 = 0.05;` (src/main.rs:25). -/
noncomputable def ROTATE_SPEED : ℝ := 0.05

/-- `const JUMP_SPEED: f32 = 75.0;` (src/main.rs:26). -/
def JUMP_SPEED : ℝ := 75

/-- `const GROUND_DISTANCE: f32 = 1.01;` (src/main.rs:27), modelled in `ℚ`. -/
def GROUND_DISTANCE : ℚ := 1.01

/-- `const JUMP_COOLDOWN: f32 = 0.1;` seconds (src/main.rs:28), in nanoseconds. -/
def JUMP_COOLDOWN_NANOS : ℕ := 100000000

/-- 3-component vector, polymorphic in the scalar type (`glam::Vec3`). -/
structure Vec3 (α : Type) where
  x : α
  y : α
  z : α
deriving DecidableEq

/-- Componentwise vector addition. -/
def Vec3.add [Add α] (a b : Vec3 α) : Vec3 α :=
  ⟨a.x + b.x, a.y + b.y, a.z + b.z⟩

/-- Scalar multiple of a vector (`scalar * vec` / `vec * scalar` in glam). -/
def Vec3.smul [Mul α] (c : α) (v : Vec3 α) : Vec3 α :=
  ⟨c * v.x, c * v.y, c * v.z⟩

/-- Componentwise negation. -/
def Vec3.neg [Neg α] (v : Vec3 α) : Vec3 α :=
  ⟨-v.x, -v.y, -v.z⟩

/-- Euclidean length (`Vec3::length`). -/
noncomputable def Vec3.length (v : Vec3 ℝ) : ℝ :=
  Real.sqrt (v.x ^ 2 + v.y ^ 2 + v.z ^ 2)

/-- `Vec3::normalize`: the vector scaled by the reciprocal of its length. -/
noncomputable def Vec3.normalize (v : Vec3 ℝ) : Vec3 ℝ :=
  Vec3.smul v.length⁻¹ v

/-- Magnitude of the horizontal (x, z) part of a vector; vocabulary used by the
spec to speak about the planar part of the desired velocity. -/
noncomputable def Vec3.hMag (v : Vec3 ℝ) : ℝ :=
  Real.sqrt (v.x ^ 2 + v.z ^ 2)

/-- Bevy `Timer` in `TimerMode::Once`: a duration and the elapsed time so far,
both in nanoseconds. -/
structure Timer where
  duration : ℕ
  elapsed : ℕ
deriving DecidableEq

/-- `Timer::tick(delta)` for `TimerMode::Once`: elapsed time advances by the
delta and clamps at the duration (a finished one-shot timer stays finished). -/
def Timer.tick (t : Timer) (delta : ℕ) : Timer :=
  { t with elapsed := min (t.elapsed + delta) t.duration }

/-- `Timer::remaining()`: duration minus elapsed time (never negative). -/
def Timer.remaining (t : Timer) : ℕ :=
  t.duration - t.elapsed

/-- `Timer::reset()`: elapsed time back to zero, duration unchanged. -/
def Timer.reset (t : Timer) : Timer :=
  { t with elapsed := 0 }

/-- The currently-pressed state of the keys `movement_controls` polls. -/
structure Keys where
  w : Bool
  s : Bool
  q : Bool
  e : Bool
  a : Bool
  d : Bool
  space : Bool
deriving DecidableEq

/-- `PlayerController` component (src/main.rs:42-47): tick-local desired
velocity, the jump cooldown timer, and the grounded flag. -/
structure PlayerController (α : Type) where
  velocity : Vec3 α
  jump_timer : Timer
  is_on_ground : Bool
deriving DecidableEq

/-- One ray-probe hit record: distance along the ray and the hit entity id. -/
structure Hit where
  distance : ℚ
  entity : ℕ
deriving DecidableEq

/-- `forward_movement` after the two sequential key checks
(src/main.rs:267-272): `W` assigns `1.0`, then `S` assigns `-1.0`. -/
def forwardMovement (w s : Bool) : ℚ :=
  let m : ℚ := 0
  let m := if w then 1 else m
  let m := if s then -1 else m
  m

/-- `side_movement` after the two sequential key checks
(src/main.rs:273-278): `Q` assigns `1.0`, then `E` assigns `-1.0`. -/
def sideMovement (q e : Bool) : ℚ :=
  let m : ℚ := 0
  let m := if q then 1 else m
  let m := if e then -1 else m
  m

/-- `fn is_near_zero(value: f32) -> bool { value > -0.001 && value < 0.001 }`
(src/main.rs:325-327). -/
def is_near_zero (value : ℚ) : Prop :=
  value > -0.001 ∧ value < 0.001

instance (value : ℚ) : Decidable (is_near_zero value) :=
  inferInstanceAs (Decidable (value > -0.001 ∧ value < 0.001))

/-- The near-zero tolerance predicate transported to `ℝ`, used to state the
spec's "magnitude not within ε ≈ 0.001 of zero" wording about real magnitudes. -/
def nearZeroR (value : ℝ) : Prop :=
  value > -0.001 ∧ value < 0.001

/-- `transform.forward()` for a yaw-only rotation: the rotated `-Z` axis. -/
noncomputable def fwdVec (yaw : ℝ) : Vec3 ℝ :=
  ⟨-Real.sin yaw, 0, -Real.cos yaw⟩

/-- `transform.left()` for a yaw-only rotation: the rotated `-X` axis. -/
noncomputable def leftVec (yaw : ℝ) : Vec3 ℝ :=
  ⟨-Real.cos yaw, 0, Real.sin yaw⟩

/-- The yaw after the `A`/`D` rotation checks (src/main.rs:279-284):
`A` adds `ROTATE_SPEED`, then `D` subtracts it. -/
noncomputable def yawAfterRot (k : Keys) (yaw : ℝ) : ℝ :=
  let y := if k.a then yaw + ROTATE_SPEED else yaw
  if k.d then y - ROTATE_SPEED else y

/-- The unnormalized planar direction (src/main.rs:295):
`(-transform.forward() * forward_movement) + (-transform.left() * side_movement)`. -/
noncomputable def planarDir (f s yaw : ℝ) : Vec3 ℝ :=
  Vec3.add (Vec3.smul f (Vec3.neg (fwdVec yaw))) (Vec3.smul s (Vec3.neg (leftVec yaw)))

/-- The jump block (src/main.rs:285-292): inside `Space`, if the cooldown has
no remaining time and the body is grounded, set the upward scalar to `1.0` and
reset the cooldown; otherwise leave the upward scalar `0.0` and the (already
ticked) timer unchanged. Returns `(upward_movement, jump_timer)`. -/
def jumpUpdate (space grounded : Bool) (t : Timer) : ℝ × Timer :=
  if space then
    if ¬(t.remaining > 0) ∧ grounded = true then (1, t.reset) else (0, t)
  else (0, t)

/-- The final horizontal velocity (src/main.rs:294-298): the planar direction,
normalized and scaled by `MOVEMENT_SPEED` when either input scalar is not near
zero, else left as-is. -/
noncomputable def hVelFinal (f s : ℚ) (yaw2 : ℝ) : Vec3 ℝ :=
  let hVel := planarDir (f : ℝ) (s : ℝ) yaw2
  if ¬is_near_zero f ∨ ¬is_near_zero s then
    Vec3.smul MOVEMENT_SPEED hVel.normalize
  else hVel

/-- `movement_controls` (src/main.rs:247-304) on the single queried body:
ticks the jump timer by the frame delta, reads the key scalars, applies the
yaw rotation, runs the jump block, builds the horizontal velocity, and writes
`velocity = (h_vel.x, upward * JUMP_SPEED, h_vel.z)`.
Returns the updated `(yaw, PlayerController)`. -/
noncomputable def movementControls (k : Keys) (delta : ℕ) (yaw : ℝ)
    (pc : PlayerController ℝ) : ℝ × PlayerController ℝ :=
  let t := pc.jump_timer.tick delta
  let ut := jumpUpdate k.space pc.is_on_ground t
  let yaw2 := yawAfterRot k yaw
  let hVel := hVelFinal (forwardMovement k.w k.s) (sideMovement k.q k.e) yaw2
  (yaw2,
    { velocity := ⟨hVel.x, ut.1 * JUMP_SPEED, hVel.z⟩
      jump_timer := ut.2
      is_on_ground := pc.is_on_ground })

/-- The first hit produced by iterating all `RayHits` lists in order and taking
the first element of the first non-empty sorted list (src/main.rs:341-350). -/
def firstHit : List (List Hit) → Option Hit
  | [] => none
  | [] :: rest => firstHit rest
  | (h :: _) :: _ => some h

/-- `check_is_on_ground` body (src/main.rs:338-350) on the single queried
controller: grounded defaults to `false`, and the first ray hit (if any)
overwrites it with `hit.distance <= GROUND_DISTANCE` before returning. -/
def checkIsOnGroundBody (hitLists : List (List Hit)) (pc : PlayerController α) :
    PlayerController α :=
  match firstHit hitLists with
  | none => { pc with is_on_ground := false }
  | some h => { pc with is_on_ground := decide (h.distance ≤ GROUND_DISTANCE) }

/-- `check_is_on_ground` system (src/main.rs:329-351): `get_single_mut`
succeeds only on exactly one controller; otherwise the system prints
`"Could not query!"` (the `Bool` in the result) and changes nothing. -/
def runCheckIsOnGround (players : List (PlayerController α))
    (hitLists : List (List Hit)) : List (PlayerController α) × Bool :=
  match players with
  | [p] => ([checkIsOnGroundBody hitLists p], false)
  | ps => (ps, true)

/-- `movement_controls` system (src/main.rs:247-260): `get_single_mut` on the
`(Transform, PlayerController)` query; on failure it logs and returns. -/
noncomputable def runMovementControls (k : Keys) (delta : ℕ)
    (players : List (ℝ × PlayerController ℝ)) : List (ℝ × PlayerController ℝ) × Bool :=
  match players with
  | [(yaw, pc)] => ([movementControls k delta yaw pc], false)
  | ps => (ps, true)

/-- `update_linear_velocity` loop body (src/main.rs:309-313): overwrite the
linear velocity's `x` and `z` with the controller's desired velocity, keep `y`. -/
def updateLinearVelocityBody (b : Vec3 α × PlayerController α) :
    Vec3 α × PlayerController α :=
  (⟨b.2.velocity.x, b.1.y, b.2.velocity.z⟩, b.2)

/-- `update_linear_velocity` system (src/main.rs:306-314): a plain
`query.iter_mut()` loop over every matching body — no singleton check, no log. -/
def runUpdateLinearVelocity (bodies : List (Vec3 α × PlayerController α)) :
    List (Vec3 α × PlayerController α) × Bool :=
  (bodies.map updateLinearVelocityBody, false)

/-- `apply_impulses` loop body (src/main.rs:319-322): add
`Vec3::Y * velocity.y` to the external-impulse accumulator. -/
def applyImpulseBody [Add α] [Mul α] [Zero α] [One α]
    (b : Vec3 α × PlayerController α) : Vec3 α × PlayerController α :=
  (Vec3.add b.1 (Vec3.smul b.2.velocity.y ⟨0, 1, 0⟩), b.2)

/-- `apply_impulses` system (src/main.rs:316-323): a plain `query.iter_mut()`
loop over every matching body — no singleton check, no log. -/
def runApplyImpulses [Add α] [Mul α] [Zero α] [One α]
    (bodies : List (Vec3 α × PlayerController α)) :
    List (Vec3 α × PlayerController α) × Bool :=
  (bodies.map applyImpulseBody, false)

/-- Keys with both the forward key `W` and the back key `S` held. -/
def KWS : Keys := ⟨true, true, false, false, false, false, false⟩

/-- Keys with both strafe keys `Q` and `E` held. -/
def KQE : Keys := ⟨false, false, true, true, false, false, false⟩

/-- Keys with only `Space` held. -/
def KJump : Keys := ⟨false, false, false, false, false, false, true⟩

/-- A concrete grounded controller with a fully-elapsed cooldown. -/
def PCJump : PlayerController ℝ :=
  ⟨⟨0, 0, 0⟩, ⟨JUMP_COOLDOWN_NANOS, JUMP_COOLDOWN_NANOS⟩, true⟩

/-- A concrete airborne controller with a fresh cooldown. -/
noncomputable def PCg : PlayerController ℝ :=
  ⟨⟨0, 0, 0⟩, ⟨JUMP_COOLDOWN_NANOS, 0⟩, false⟩

/-- A concrete rational-valued controller with a nonzero desired velocity. -/
def pcQ : PlayerController ℚ :=
  ⟨⟨1, 0, 2⟩, ⟨JUMP_COOLDOWN_NANOS, 0⟩, false⟩

/-- Two physics bodies at rest paired with `pcQ`: a world in which the
"exactly one controlled body" check fails. -/
def bodiesTwo : List (Vec3 ℚ × PlayerController ℚ) :=
  [(⟨0, 0, 0⟩, pcQ), (⟨0, 0, 0⟩, pcQ)]

/-- A hit exactly at the ground-distance threshold. -/
def hitGD : Hit := ⟨GROUND_DISTANCE, 0⟩

/-! ### Helper lemmas -/

lemma jumpUpdate_eq (sp g : Bool) (t : Timer) :
    jumpUpdate sp g t =
      if sp = true ∧ g = true ∧ t.remaining = 0 then (1, t.reset) else (0, t) := by
  cases sp <;> cases g <;> by_cases h : t.remaining = 0 <;>
    simp [jumpUpdate, h, Nat.pos_iff_ne_zero]

lemma movementControls_velocity (k : Keys) (delta : ℕ) (yaw : ℝ)
    (pc : PlayerController ℝ) :
    (movementControls k delta yaw pc).2.velocity =
      ⟨(hVelFinal (forwardMovement k.w k.s) (sideMovement k.q k.e) (yawAfterRot k yaw)).x,
        (jumpUpdate k.space pc.is_on_ground (pc.jump_timer.tick delta)).1 * JUMP_SPEED,
        (hVelFinal (forwardMovement k.w k.s) (sideMovement k.q k.e) (yawAfterRot k yaw)).z⟩ :=
  rfl

lemma movementControls_timer (k : Keys) (delta : ℕ) (yaw : ℝ)
    (pc : PlayerController ℝ) :
    (movementControls k delta yaw pc).2.jump_timer =
      (jumpUpdate k.space pc.is_on_ground (pc.jump_timer.tick delta)).2 :=
  rfl

lemma movementControls_timer_ite (k : Keys) (delta : ℕ) (yaw : ℝ)
    (pc : PlayerController ℝ) :
    (movementControls k delta yaw pc).2.jump_timer =
      if k.space = true ∧ pc.is_on_ground = true ∧ (pc.jump_timer.tick delta).remaining = 0
      then (pc.jump_timer.tick delta).reset
      else pc.jump_timer.tick delta := by
  rw [movementControls_timer, jumpUpdate_eq]
  by_cases h : k.space = true ∧ pc.is_on_ground = true ∧ (pc.jump_timer.tick delta).remaining = 0 <;>
    simp [h]

lemma movementControls_vy (k : Keys) (delta : ℕ) (yaw : ℝ)
    (pc : PlayerController ℝ) :
    (movementControls k delta yaw pc).2.velocity.y =
      if k.space = true ∧ pc.is_on_ground = true ∧ (pc.jump_timer.tick delta).remaining = 0
      then JUMP_SPEED
      else 0 := by
  rw [movementControls_velocity]
  show (jumpUpdate k.space pc.is_on_ground (pc.jump_timer.tick delta)).1 * JUMP_SPEED = _
  rw [jumpUpdate_eq]
  by_cases h : k.space = true ∧ pc.is_on_ground = true ∧ (pc.jump_timer.tick delta).remaining = 0 <;>
    simp [h]

lemma JUMP_SPEED_pos : (0 : ℝ) < JUMP_SPEED := by
  unfold JUMP_SPEED; norm_num

/-! ### Claim C7: jump-cooldown timer behaviour -/

/-- C7: the jump cooldown advances by the tick's delta every tick regardless of
input (the resulting timer is the ticked timer, reset only on an accepted
jump); under `Timer.tick` the remaining time is monotonically non-increasing,
elapsed time never exceeds the duration (so `remaining` never goes negative /
never truncates), and once `remaining` reaches zero it stays zero until an
explicit reset. -/
theorem timer_cooldown_props (t : Timer) (d : ℕ) (k : Keys) (delta : ℕ)
    (yaw : ℝ) (pc : PlayerController ℝ) :
    ((t.tick d).remaining ≤ t.remaining)
    ∧ ((t.tick d).elapsed ≤ (t.tick d).duration)
    ∧ (t.remaining = 0 → (t.tick d).remaining = 0)
    ∧ ((movementControls k delta yaw pc).2.jump_timer =
        if k.space = true ∧ pc.is_on_ground = true
            ∧ (pc.jump_timer.tick delta).remaining = 0
        then (pc.jump_timer.tick delta).reset
        else pc.jump_timer.tick delta) := by
  refine ⟨?_, ?_, ?_, movementControls_timer_ite k delta yaw pc⟩ <;>
    simp [Timer.tick, Timer.remaining] <;> omega

/-- Witness for C7 at a concrete fully-elapsed timer: remaining time is zero
and stays zero after a further tick. -/
theorem timer_cooldown_props_witness :
    (Timer.remaining ⟨5, 5⟩ = 0) ∧ ((Timer.tick ⟨5, 5⟩ 3).remaining = 0) :=
  ⟨by decide, (timer_cooldown_props ⟨5, 5⟩ 3 KWS 0 0 PCJump).2.2.1 (by decide)⟩

/-! ### Claim C3: jump trigger condition and cooldown reset -/

/-- C3: on every tick a jump is triggered (nonzero vertical desired velocity)
iff the jump key is active, `is_on_ground` is true and the (just-ticked)
cooldown's remaining time is zero; the resulting timer is the ticked timer,
reset exactly on a trigger, and on a trigger the cooldown's remaining time is
back to its full duration. -/
theorem jump_trigger_iff (k : Keys) (delta : ℕ) (yaw : ℝ)
    (pc : PlayerController ℝ) :
    (((movementControls k delta yaw pc).2.velocity.y ≠ 0) ↔
      (k.space = true ∧ pc.is_on_ground = true
        ∧ (pc.jump_timer.tick delta).remaining = 0))
    ∧ ((movementControls k delta yaw pc).2.jump_timer =
        if k.space = true ∧ pc.is_on_ground = true
            ∧ (pc.jump_timer.tick delta).remaining = 0
        then (pc.jump_timer.tick delta).reset
        else pc.jump_timer.tick delta)
    ∧ ((k.space = true ∧ pc.is_on_ground = true
          ∧ (pc.jump_timer.tick delta).remaining = 0) →
        (movementControls k delta yaw pc).2.jump_timer.remaining =
          (movementControls k delta yaw pc).2.jump_timer.duration) := by
  have hy := movementControls_vy k delta yaw pc
  have ht := movementControls_timer_ite k delta yaw pc
  by_cases h : k.space = true ∧ pc.is_on_ground = true
      ∧ (pc.jump_timer.tick delta).remaining = 0
  · refine ⟨?_, ht, fun _ => ?_⟩
    · rw [hy, if_pos h]
      have := JUMP_SPEED_pos
      constructor
      · intro _; exact h
      · intro _; positivity
    · rw [ht, if_pos h]
      simp [Timer.reset, Timer.remaining, Timer.tick]
  · refine ⟨?_, ht, fun hc => absurd hc h⟩
    rw [hy, if_neg h]
    simp [h]

/-- Witness for C3 at a concrete grounded controller with an elapsed cooldown
and the jump key held: the trigger condition holds and the cooldown is back at
full duration. -/
theorem jump_trigger_iff_witness :
    (KJump.space = true ∧ PCJump.is_on_ground = true
      ∧ (PCJump.jump_timer.tick 0).remaining = 0)
    ∧ (movementControls KJump 0 0 PCJump).2.jump_timer.remaining =
        (movementControls KJump 0 0 PCJump).2.jump_timer.duration :=
  ⟨⟨rfl, rfl, by decide⟩,
    (jump_trigger_iff KJump 0 0 PCJump).2.2 ⟨rfl, rfl, by decide⟩⟩

/-! ### Claim C5: vertical desired velocity and the applied impulse -/

/-- C5: the vertical desired velocity equals exactly `JUMP_SPEED` on a tick
where the jump trigger fires and exactly `0` on every other tick; the impulse
applied that tick adds exactly this vertical value along the up axis to the
accumulator, so a trigger tick contributes the single nonzero impulse
`(0, JUMP_SPEED, 0)` and a non-trigger tick adds the zero vector, leaving the
accumulator unchanged. -/
theorem vertical_velocity_impulse (k : Keys) (delta : ℕ) (yaw : ℝ)
    (pc : PlayerController ℝ) (imp : Vec3 ℝ) :
    ((movementControls k delta yaw pc).2.velocity.y =
      if k.space = true ∧ pc.is_on_ground = true
          ∧ (pc.jump_timer.tick delta).remaining = 0
      then JUMP_SPEED else 0)
    ∧ (applyImpulseBody (imp, (movementControls k delta yaw pc).2) =
        (Vec3.add imp
          ⟨0,
            if k.space = true ∧ pc.is_on_ground = true
                ∧ (pc.jump_timer.tick delta).remaining = 0
            then JUMP_SPEED else 0,
            0⟩,
          (movementControls k delta yaw pc).2))
    ∧ (Vec3.add imp (⟨0, 0, 0⟩ : Vec3 ℝ) = imp) := by
  have hy := movementControls_vy k delta yaw pc
  refine ⟨hy, ?_, ?_⟩
  · unfold applyImpulseBody
    rw [hy]
    simp [Vec3.smul]
  · cases imp
    simp [Vec3.add]

/-! ### Claim C6: velocity synchronizer frame effect -/

/-- C6: `update_linear_velocity` overwrites exactly the `x` and `z` components
of the body's linear velocity with the corresponding components of the desired
velocity, leaves the `y` component unchanged, leaves the whole controller
record untouched, and at the system level maps this per-body update over the
query results with no other effect. -/
theorem linear_velocity_sync (α : Type) (lv : Vec3 α) (pc : PlayerController α)
    (bodies : List (Vec3 α × PlayerController α)) :
    ((updateLinearVelocityBody (lv, pc)).1.x = pc.velocity.x)
    ∧ ((updateLinearVelocityBody (lv, pc)).1.z = pc.velocity.z)
    ∧ ((updateLinearVelocityBody (lv, pc)).1.y = lv.y)
    ∧ ((updateLinearVelocityBody (lv, pc)).2 = pc)
    ∧ (runUpdateLinearVelocity bodies = (bodies.map updateLinearVelocityBody, false)) :=
  ⟨rfl, rfl, rfl, rfl, rfl⟩

/-! ### Claim C4: ground sensor -/

/-- C4: the ground sensor sets `is_on_ground` from the first (nearest, since
the engine delivers hits sorted by ascending distance) hit only: an empty hit
list (or no hit list at all) gives `false`; a first hit at distance `≤
GROUND_DISTANCE` gives `true` (the exact boundary included, via the last
conjunct), a strictly greater one gives `false`; and all hits after the first
are ignored (the result does not depend on the tail). -/
theorem ground_sensor_contract (α : Type) (pc : PlayerController α) (h : Hit)
    (t t' : List Hit) :
    ((checkIsOnGroundBody [] pc).is_on_ground = false)
    ∧ ((checkIsOnGroundBody [([] : List Hit)] pc).is_on_ground = false)
    ∧ ((checkIsOnGroundBody [h :: t] pc).is_on_ground =
        decide (h.distance ≤ GROUND_DISTANCE))
    ∧ (checkIsOnGroundBody [h :: t] pc = checkIsOnGroundBody [h :: t'] pc)
    ∧ (h.distance = GROUND_DISTANCE →
        (checkIsOnGroundBody [h :: t] pc).is_on_ground = true) := by
  refine ⟨rfl, rfl, rfl, rfl, fun hb => ?_⟩
  simp [checkIsOnGroundBody, firstHit, hb]

/-- Witness for C4 at the exact boundary: a hit at distance exactly
`GROUND_DISTANCE` makes the controller grounded. -/
theorem ground_sensor_contract_witness :
    (hitGD.distance = GROUND_DISTANCE)
    ∧ ((checkIsOnGroundBody [[hitGD]] pcQ).is_on_ground = true) :=
  ⟨rfl, (ground_sensor_contract ℚ pcQ hitGD [] []).2.2.2.2 rfl⟩

/-! ### Claim C10: input scalar values and override order -/

/-- C10: each movement-axis input scalar only ever takes the values `-1`, `0`
or `1`, and when both keys of one axis are held the later-checked key wins
(`S` over `W`, `E` over `Q`, giving `-1`), rather than the two contributions
combining to `0`. -/
theorem input_scalar_override (w s q e : Bool) :
    (forwardMovement w s = -1 ∨ forwardMovement w s = 0 ∨ forwardMovement w s = 1)
    ∧ (sideMovement q e = -1 ∨ sideMovement q e = 0 ∨ sideMovement q e = 1)
    ∧ (forwardMovement true true = -1)
    ∧ (sideMovement true true = -1)
    ∧ (forwardMovement true false = 1 ∧ forwardMovement false true = -1
        ∧ forwardMovement false false = 0)
    ∧ (sideMovement true false = 1 ∧ sideMovement false true = -1
        ∧ sideMovement false false = 0)
    ∧ (forwardMovement true true ≠ 0)
    ∧ (sideMovement true true ≠ 0) := by
  refine ⟨?_, ?_, by decide, by decide, by decide, by decide, by decide, by decide⟩
  · cases w <;> cases s <;> decide
  · cases q <;> cases e <;> decide

/-! ### Claim C2 (corrected): singleton checks per pipeline stage -/

/-- Counterexample to C2 as stated: with two controlled bodies the
"exactly one controlled body" condition fails, yet `update_linear_velocity`
logs nothing (`false`) and still performs work — the first body's linear
velocity is overwritten, so the prior state is not preserved. -/
theorem singleton_check_counterexample :
    (bodiesTwo.length ≠ 1)
    ∧ ((runUpdateLinearVelocity bodiesTwo).2 = false)
    ∧ ((runUpdateLinearVelocity bodiesTwo).1 ≠ bodiesTwo) := by
  refine ⟨by decide, rfl, by decide⟩

/-- C2 amended: only the ground sensor and the input-to-velocity mapper check
for exactly one controlled body, log a diagnostic and skip their work for the
tick when the check fails; the velocity synchronizer and the impulse applier
run over every matching body with no singleton check and no diagnostic. -/
theorem singleton_check_amended :
    (∀ (α : Type) (players : List (PlayerController α)) (hl : List (List Hit)),
        players.length ≠ 1 → runCheckIsOnGround players hl = (players, true))
    ∧ (∀ (k : Keys) (delta : ℕ) (players : List (ℝ × PlayerController ℝ)),
        players.length ≠ 1 → runMovementControls k delta players = (players, true))
    ∧ (∀ (α : Type) (bodies : List (Vec3 α × PlayerController α)),
        runUpdateLinearVelocity bodies = (bodies.map updateLinearVelocityBody, false))
    ∧ (∀ (α : Type) (_ : Add α) (_ : Mul α) (_ : Zero α) (_ : One α)
          (bodies : List (Vec3 α × PlayerController α)),
        runApplyImpulses bodies = (bodies.map applyImpulseBody, false)) := by
  refine ⟨?_, ?_, fun _ _ => rfl, fun _ _ _ _ _ _ => rfl⟩
  · intro α players hl hlen
    match players with
    | [] => rfl
    | [p] => exact absurd rfl hlen
    | p :: q :: rest => rfl
  · intro k delta players hlen
    match players with
    | [] => rfl
    | [(yaw, pc)] => exact absurd rfl hlen
    | p :: q :: rest => rfl

/-- Witness for the amended C2: concrete two-element worlds make the sensor
and the mapper log-and-skip. -/
theorem singleton_check_amended_witness :
    (([pcQ, pcQ] : List (PlayerController ℚ)).length ≠ 1)
    ∧ (runCheckIsOnGround [pcQ, pcQ] ([] : List (List Hit)) = ([pcQ, pcQ], true))
    ∧ (([((0 : ℝ), PCg), (0, PCg)] : List (ℝ × PlayerController ℝ)).length ≠ 1)
    ∧ (runMovementControls KWS 0 [((0 : ℝ), PCg), (0, PCg)] =
        ([((0 : ℝ), PCg), (0, PCg)], true)) :=
  ⟨by decide,
    singleton_check_amended.1 ℚ [pcQ, pcQ] [] (by decide),
    by simp,
    singleton_check_amended.2.1 KWS 0 [((0 : ℝ), PCg), (0, PCg)] (by simp)⟩

/-! ### Vector and planar-direction lemmas -/

lemma Vec3.length_nonneg (v : Vec3 ℝ) : 0 ≤ v.length :=
  Real.sqrt_nonneg _

lemma Vec3.length_smul (c : ℝ) (v : Vec3 ℝ) :
    (Vec3.smul c v).length = |c| * v.length := by
  simp only [Vec3.smul, Vec3.length]
  rw [show (c * v.x) ^ 2 + (c * v.y) ^ 2 + (c * v.z) ^ 2
      = c ^ 2 * (v.x ^ 2 + v.y ^ 2 + v.z ^ 2) by ring]
  rw [Real.sqrt_mul (sq_nonneg c), Real.sqrt_sq_eq_abs]

lemma Vec3.normalize_length (v : Vec3 ℝ) (h : v.length ≠ 0) :
    v.normalize.length = 1 := by
  unfold Vec3.normalize
  rw [Vec3.length_smul, abs_inv, abs_of_nonneg (Vec3.length_nonneg v),
    inv_mul_cancel₀ h]

lemma Vec3.normalize_of_unit (v : Vec3 ℝ) (hv : v.length = 1) :
    v.normalize = v := by
  unfold Vec3.normalize
  rw [hv]
  cases v
  simp [Vec3.smul]

lemma Vec3.hMag_of_y_eq_zero (v : Vec3 ℝ) (h : v.y = 0) : v.hMag = v.length := by
  unfold Vec3.hMag Vec3.length
  rw [h]
  congr 1
  ring

lemma planarDir_y (f s yaw : ℝ) : (planarDir f s yaw).y = 0 := by
  simp [planarDir, fwdVec, leftVec, Vec3.add, Vec3.smul, Vec3.neg]

lemma planarDir_eq (f s yaw : ℝ) :
    planarDir f s yaw =
      ⟨f * Real.sin yaw + s * Real.cos yaw, 0,
        f * Real.cos yaw - s * Real.sin yaw⟩ := by
  unfold planarDir fwdVec leftVec
  simp only [Vec3.add, Vec3.smul, Vec3.neg, Vec3.mk.injEq]
  refine ⟨by ring, by ring, by ring⟩

lemma planarDir_length (f s yaw : ℝ) :
    (planarDir f s yaw).length = Real.sqrt (f ^ 2 + s ^ 2) := by
  rw [planarDir_eq]
  unfold Vec3.length
  congr 1
  have h := Real.sin_sq_add_cos_sq yaw
  linear_combination (f ^ 2 + s ^ 2) * h

lemma fwdVec_length (yaw : ℝ) : (fwdVec yaw).length = 1 := by
  unfold fwdVec Vec3.length
  rw [show (-Real.sin yaw) ^ 2 + (0 : ℝ) ^ 2 + (-Real.cos yaw) ^ 2
      = Real.sin yaw ^ 2 + Real.cos yaw ^ 2 by ring]
  rw [Real.sin_sq_add_cos_sq, Real.sqrt_one]

lemma leftVec_length (yaw : ℝ) : (leftVec yaw).length = 1 := by
  unfold leftVec Vec3.length
  rw [show (-Real.cos yaw) ^ 2 + (0 : ℝ) ^ 2 + (Real.sin yaw) ^ 2
      = Real.sin yaw ^ 2 + Real.cos yaw ^ 2 by ring]
  rw [Real.sin_sq_add_cos_sq, Real.sqrt_one]

lemma fm_cases (w s : Bool) :
    forwardMovement w s = -1 ∨ forwardMovement w s = 0 ∨ forwardMovement w s = 1 := by
  cases w <;> cases s <;> decide

lemma sm_cases (q e : Bool) :
    sideMovement q e = -1 ∨ sideMovement q e = 0 ∨ sideMovement q e = 1 := by
  cases q <;> cases e <;> decide

lemma not_near_zero_one : ¬is_near_zero 1 := by
  unfold is_near_zero; norm_num

lemma not_near_zero_neg_one : ¬is_near_zero (-1) := by
  unfold is_near_zero; norm_num

lemma near_zero_zero : is_near_zero 0 := by
  unfold is_near_zero; norm_num

lemma guard_iff_not_both_zero (w s q e : Bool) :
    (¬is_near_zero (forwardMovement w s) ∨ ¬is_near_zero (sideMovement q e)) ↔
      ¬(forwardMovement w s = 0 ∧ sideMovement q e = 0) := by
  cases w <;> cases s <;> cases q <;> cases e <;>
    norm_num [forwardMovement, sideMovement, is_near_zero]

lemma planarDir_length_ge_one (f s : ℚ) (yaw : ℝ)
    (hf : f = -1 ∨ f = 0 ∨ f = 1) (hs : s = -1 ∨ s = 0 ∨ s = 1)
    (h : ¬(f = 0 ∧ s = 0)) :
    1 ≤ (planarDir (f : ℝ) (s : ℝ) yaw).length := by
  rw [planarDir_length]
  have h1 : (1 : ℚ) ≤ f ^ 2 + s ^ 2 := by
    rcases not_and_or.mp h with hf0 | hs0
    · rcases hf with hfv | hfv | hfv
      · rw [hfv]; nlinarith [sq_nonneg s]
      · exact absurd hfv hf0
      · rw [hfv]; nlinarith [sq_nonneg s]
    · rcases hs with hsv | hsv | hsv
      · rw [hsv]; nlinarith [sq_nonneg f]
      · exact absurd hsv hs0
      · rw [hsv]; nlinarith [sq_nonneg f]
  have h1r : (1 : ℝ) ≤ (f : ℝ) ^ 2 + (s : ℝ) ^ 2 := by exact_mod_cast h1
  calc (1 : ℝ) = Real.sqrt 1 := by rw [Real.sqrt_one]
    _ ≤ Real.sqrt ((f : ℝ) ^ 2 + (s : ℝ) ^ 2) := Real.sqrt_le_sqrt h1r

lemma hVelFinal_y (f s : ℚ) (yaw : ℝ) : (hVelFinal f s yaw).y = 0 := by
  unfold hVelFinal
  by_cases hguard : ¬is_near_zero f ∨ ¬is_near_zero s
  · rw [if_pos hguard]
    simp [Vec3.smul, Vec3.normalize, planarDir_y]
  · rw [if_neg hguard]
    exact planarDir_y _ _ _

lemma hVelFinal_length (f s : ℚ) (yaw : ℝ)
    (hguard : ¬is_near_zero f ∨ ¬is_near_zero s)
    (hpos : (planarDir (f : ℝ) (s : ℝ) yaw).length ≠ 0) :
    (hVelFinal f s yaw).length = MOVEMENT_SPEED := by
  unfold hVelFinal
  rw [if_pos hguard, Vec3.length_smul, Vec3.normalize_length _ hpos]
  unfold MOVEMENT_SPEED
  norm_num

lemma mc_hMag (k : Keys) (delta : ℕ) (yaw : ℝ) (pc : PlayerController ℝ) :
    Vec3.hMag (movementControls k delta yaw pc).2.velocity =
      Vec3.hMag (hVelFinal (forwardMovement k.w k.s) (sideMovement k.q k.e)
        (yawAfterRot k yaw)) :=
  rfl

lemma mc_vx (k : Keys) (delta : ℕ) (yaw : ℝ) (pc : PlayerController ℝ) :
    (movementControls k delta yaw pc).2.velocity.x =
      (hVelFinal (forwardMovement k.w k.s) (sideMovement k.q k.e)
        (yawAfterRot k yaw)).x :=
  rfl

lemma mc_vz (k : Keys) (delta : ℕ) (yaw : ℝ) (pc : PlayerController ℝ) :
    (movementControls k delta yaw pc).2.velocity.z =
      (hVelFinal (forwardMovement k.w k.s) (sideMovement k.q k.e)
        (yawAfterRot k yaw)).z :=
  rfl

/-! ### Claim C8: planar speed scaling -/

/-- C8: the planar direction's magnitude is within the ε = 0.001 tolerance of
zero exactly when both input scalars are zero; on those ticks the planar part
of the desired velocity is the zero vector (horizontal magnitude 0), and on
every other tick its horizontal magnitude is exactly `MOVEMENT_SPEED`, no
matter how many directional inputs combine and independent of orientation. -/
theorem planar_speed_scaling (k : Keys) (delta : ℕ) (yaw : ℝ)
    (pc : PlayerController ℝ) :
    (nearZeroR ((planarDir ((forwardMovement k.w k.s : ℚ) : ℝ)
          ((sideMovement k.q k.e : ℚ) : ℝ) (yawAfterRot k yaw)).length) ↔
        (forwardMovement k.w k.s = 0 ∧ sideMovement k.q k.e = 0))
    ∧ (Vec3.hMag (movementControls k delta yaw pc).2.velocity =
        if forwardMovement k.w k.s = 0 ∧ sideMovement k.q k.e = 0 then 0
        else MOVEMENT_SPEED) := by
  have hfc := fm_cases k.w k.s
  have hsc := sm_cases k.q k.e
  by_cases h0 : forwardMovement k.w k.s = 0 ∧ sideMovement k.q k.e = 0
  · constructor
    · rw [planarDir_length, h0.1, h0.2]
      push_cast
      norm_num [nearZeroR, Real.sqrt_zero]
    · rw [mc_hMag, if_pos h0]
      have hguard : ¬(¬is_near_zero (forwardMovement k.w k.s)
          ∨ ¬is_near_zero (sideMovement k.q k.e)) :=
        fun hg => (guard_iff_not_both_zero k.w k.s k.q k.e).mp hg h0
      have hplan : hVelFinal (forwardMovement k.w k.s) (sideMovement k.q k.e)
          (yawAfterRot k yaw) =
          planarDir ((forwardMovement k.w k.s : ℚ) : ℝ)
            ((sideMovement k.q k.e : ℚ) : ℝ) (yawAfterRot k yaw) := by
        unfold hVelFinal
        rw [if_neg hguard]
      rw [hplan, Vec3.hMag_of_y_eq_zero _ (planarDir_y _ _ _), planarDir_length,
        h0.1, h0.2]
      push_cast
      norm_num [Real.sqrt_zero]
  · have hge1 : 1 ≤ (planarDir ((forwardMovement k.w k.s : ℚ) : ℝ)
        ((sideMovement k.q k.e : ℚ) : ℝ) (yawAfterRot k yaw)).length :=
      planarDir_length_ge_one _ _ _ hfc hsc h0
    constructor
    · refine iff_of_false (fun hnz => ?_) h0
      have h2 := hnz.2
      unfold nearZeroR at hnz
      linarith [hnz.2]
    · rw [mc_hMag, if_neg h0]
      have hguard : ¬is_near_zero (forwardMovement k.w k.s)
          ∨ ¬is_near_zero (sideMovement k.q k.e) :=
        (guard_iff_not_both_zero k.w k.s k.q k.e).mpr h0
      have hlen0 : (planarDir ((forwardMovement k.w k.s : ℚ) : ℝ)
          ((sideMovement k.q k.e : ℚ) : ℝ) (yawAfterRot k yaw)).length ≠ 0 := by
        intro hz
        rw [hz] at hge1
        linarith
      rw [Vec3.hMag_of_y_eq_zero _ (hVelFinal_y _ _ _),
        hVelFinal_length _ _ _ hguard hlen0]

/-! ### Claim C9: normalization is safe under the guard -/

/-- C9: whenever the normalization branch is reached (the code's guard that not
both input scalars are near zero), at least one scalar is `±1` and the planar
vector built from the orthonormal forward/left basis has length at least `1`,
so `normalize` is never applied to a (near-)zero-length vector: the division it
performs is by a length bounded away from `0`, and the desired velocity is a
well-defined real vector. -/
theorem normalize_guard_safe (k : Keys) (yaw : ℝ)
    (hguard : ¬is_near_zero (forwardMovement k.w k.s)
      ∨ ¬is_near_zero (sideMovement k.q k.e)) :
    (forwardMovement k.w k.s = 1 ∨ forwardMovement k.w k.s = -1
      ∨ sideMovement k.q k.e = 1 ∨ sideMovement k.q k.e = -1)
    ∧ 1 ≤ (planarDir ((forwardMovement k.w k.s : ℚ) : ℝ)
        ((sideMovement k.q k.e : ℚ) : ℝ) yaw).length := by
  have h0 := (guard_iff_not_both_zero k.w k.s k.q k.e).mp hguard
  have hfc := fm_cases k.w k.s
  have hsc := sm_cases k.q k.e
  refine ⟨?_, planarDir_length_ge_one _ _ yaw hfc hsc h0⟩
  rcases hfc with h | h | h
  · exact Or.inr (Or.inl h)
  · rcases hsc with h2 | h2 | h2
    · exact Or.inr (Or.inr (Or.inr h2))
    · exact absurd ⟨h, h2⟩ h0
    · exact Or.inr (Or.inr (Or.inl h2))
  · exact Or.inl h

/-- Witness for C9 with both opposing forward-axis keys held: the guard holds
and the planar vector's length is at least one. -/
theorem normalize_guard_safe_witness :
    (¬is_near_zero (forwardMovement KWS.w KWS.s)
      ∨ ¬is_near_zero (sideMovement KWS.q KWS.e))
    ∧ 1 ≤ (planarDir ((forwardMovement KWS.w KWS.s : ℚ) : ℝ)
        ((sideMovement KWS.q KWS.e : ℚ) : ℝ) 0).length := by
  have hg : ¬is_near_zero (forwardMovement KWS.w KWS.s)
      ∨ ¬is_near_zero (sideMovement KWS.q KWS.e) := by
    left
    show ¬is_near_zero (forwardMovement true true)
    norm_num [forwardMovement, is_near_zero]
  exact ⟨hg, (normalize_guard_safe KWS 0 hg).2⟩

lemma hVelFinal_back (yaw : ℝ) :
    hVelFinal (-1) 0 yaw = Vec3.smul MOVEMENT_SPEED (fwdVec yaw) := by
  unfold hVelFinal
  rw [if_pos (Or.inl not_near_zero_neg_one)]
  have hdir : planarDir ((-1 : ℚ) : ℝ) ((0 : ℚ) : ℝ) yaw = fwdVec yaw := by
    rw [planarDir_eq]
    unfold fwdVec
    push_cast
    simp only [Vec3.mk.injEq]
    refine ⟨by ring, by trivial, by ring⟩
  rw [hdir, Vec3.normalize_of_unit _ (fwdVec_length yaw)]

lemma hVelFinal_left (yaw : ℝ) :
    hVelFinal 0 (-1) yaw = Vec3.smul MOVEMENT_SPEED (leftVec yaw) := by
  unfold hVelFinal
  rw [if_pos (Or.inr not_near_zero_neg_one)]
  have hdir : planarDir ((0 : ℚ) : ℝ) ((-1 : ℚ) : ℝ) yaw = leftVec yaw := by
    rw [planarDir_eq]
    unfold leftVec
    push_cast
    simp only [Vec3.mk.injEq]
    refine ⟨by ring, by trivial, by ring⟩
  rw [hdir, Vec3.normalize_of_unit _ (leftVec_length yaw)]

/-! ### Claim C1 (corrected): opposing inputs do not cancel -/

/-- Counterexample to C1 as stated: with both the forward key `W` and the back
key `S` held (and no strafe), the axis scalar is `-1`, not `0`, and at yaw `0`
the resulting planar desired velocity has `z`-component `-MOVEMENT_SPEED`,
which is nonzero — opposing inputs do not cancel to a zero planar direction. -/
theorem opposing_inputs_counterexample :
    (forwardMovement true true ≠ 0)
    ∧ ((movementControls KWS 0 0 PCJump).2.velocity.z = -MOVEMENT_SPEED)
    ∧ (-MOVEMENT_SPEED ≠ (0 : ℝ)) := by
  refine ⟨by decide, ?_, by unfold MOVEMENT_SPEED; norm_num⟩
  rw [mc_vz]
  have hf1 : forwardMovement KWS.w KWS.s = -1 := by decide
  have hs1 : sideMovement KWS.q KWS.e = 0 := by decide
  have hyaw : yawAfterRot KWS (0 : ℝ) = 0 := by
    simp [yawAfterRot, KWS]
  rw [hf1, hs1, hyaw, hVelFinal_back]
  show MOVEMENT_SPEED * (fwdVec 0).z = -MOVEMENT_SPEED
  simp [fwdVec, Real.cos_zero]

/-- C1 amended: when both opposing inputs of an axis are active, the
later-checked key overrides the earlier one instead of cancelling: with `W`
and `S` both held the planar desired velocity is `MOVEMENT_SPEED` times the
forward basis vector (the back key's direction), and with `Q` and `E` both
held it is `MOVEMENT_SPEED` times the left basis vector (the strafe key
checked second), for every facing orientation. -/
theorem opposing_inputs_override (delta : ℕ) (yaw : ℝ) (pc : PlayerController ℝ) :
    ((movementControls KWS delta yaw pc).2.velocity.x = MOVEMENT_SPEED * (fwdVec yaw).x
      ∧ (movementControls KWS delta yaw pc).2.velocity.z = MOVEMENT_SPEED * (fwdVec yaw).z)
    ∧ ((movementControls KQE delta yaw pc).2.velocity.x = MOVEMENT_SPEED * (leftVec yaw).x
      ∧ (movementControls KQE delta yaw pc).2.velocity.z = MOVEMENT_SPEED * (leftVec yaw).z) := by
  have hf1 : forwardMovement KWS.w KWS.s = -1 := by decide
  have hs1 : sideMovement KWS.q KWS.e = 0 := by decide
  have hf2 : forwardMovement KQE.w KQE.s = 0 := by decide
  have hs2 : sideMovement KQE.q KQE.e = -1 := by decide
  have hyaw1 : yawAfterRot KWS yaw = yaw := by simp [yawAfterRot, KWS]
  have hyaw2 : yawAfterRot KQE yaw = yaw := by simp [yawAfterRot, KQE]
  refine ⟨⟨?_, ?_⟩, ⟨?_, ?_⟩⟩
  · rw [mc_vx, hf1, hs1, hyaw1, hVelFinal_back]; rfl
  · rw [mc_vz, hf1, hs1, hyaw1, hVelFinal_back]; rfl
  · rw [mc_vx, hf2, hs2, hyaw2, hVelFinal_left]; rfl
  · rw [mc_vz, hf2, hs2, hyaw2, hVelFinal_left]; rfl
